import Mathlib

/-!
Map viewer (`map_view/main.cpp`) and the zone query core it calls.

Part I embeds `main` of `map_view/main.cpp`: the start-up sequence, the four
loads, the `do ... while (rendering)` frame loop and the shutdown, as a function
from the outcomes of the external calls to the trace of calls `main` makes.

Part II models the query core (`ZoneMap::FindBestZ`, `WaterMap::InLiquid`,
line of sight), whose source is not part of the inspected files, from its
written specification.
-/

namespace MapView

/-! ## Part I. The viewer, `map_view/main.cpp` -/

/-- A `glm::vec3`. The viewer only copies the components of a vector, it never
computes with them, so a `float` is carried as a rational number. -/
structure Vec3 where
  x : ℚ
  y : ℚ
  z : ℚ
deriving DecidableEq

/-- The object behind a `Model *` (`model.h`); only its identity matters to `main`. -/
structure Model where
  id : Nat
deriving DecidableEq

/-- The object behind `std::unique_ptr<ZoneMap>`. -/
structure ZoneMap where
  id : Nat
deriving DecidableEq

/-- The object behind `std::unique_ptr<WaterMap>`. -/
structure WaterMap where
  id : Nat
deriving DecidableEq

/-- A call on a loaded map object. The pointer the call goes through is recorded as
it is (`none` is the null pointer). `FindBestZ` and `InLiquid` are the two calls
written in `main.cpp` (the second argument of `FindBestZ` is always `nullptr`);
`LineOfSight` is the third query of the query boundary, which `main` never writes. -/
inductive Query
  | FindBestZ (z_map : Option ZoneMap) (start : Vec3)
  | InLiquid (w_map : Option WaterMap) (x y z : ℚ)
  | LineOfSight (z_map : Option ZoneMap) (a b : Vec3)
deriving DecidableEq

/-- The lines written with `ImGui::Text` in the readout block (lines 106-117). -/
inductive TextLine
  | fps (framerate : ℚ)
  | zone (filename : String)
  | coords (a b c : ℚ)
  | bestZAndLiquid (bestZ : ℚ) (inLiquid : Bool)
  | bestZ (bestZ : ℚ)
  | inLiquid (inLiquid : Bool)
deriving DecidableEq

/-- The externally visible calls of `main`, in program order. -/
inductive Event
  | eqLogStart
  | logFatal (msg : String)
  | logWarn (msg : String)
  | glfwInit
  | glfwWindowHints
  | glfwCreateWindow
  | glfwMakeContextCurrent
  | glewInit
  | glfwSetInputModes
  | shaderSetup
  | LoadMap (filename : String)
  | LoadWaterMap (filename : String)
  | LoadMapFile (filename : String)
  | LoadWaterMapfile (filename : String)
  | cameraSetup
  | imguiInit
  | glfwGetTime
  | camUpdateInputs
  | glfwPollEvents
  | imguiNewFrame
  | text (t : TextLine)
  | query (q : Query)
  | optionsWindow (r_c r_nc r_vol : Bool)
  | glfwGetKeyEscape
  | glfwWindowShouldClose
  | glClearAndState
  | shaderUse
  | glPolygonMode (fill : Bool)
  | setMVP
  | setTint (r g b a : ℚ)
  | glBlend (enable : Bool)
  | draw (m : Option Model)
  | glViewport
  | imguiRender
  | glfwSwapBuffers
  | delete (m : Model)
  | glfwTerminate
deriving DecidableEq

/-- Outcomes of the external calls `main` depends on. `argsRightToLeft` is the
order in which the compiler evaluates the two call arguments of the
`ImGui::Text` at lines 110-111, which C++ leaves unspecified. The two query
oracles give the value a call returns through the given pointer. -/
structure Env where
  glfwInit : Bool
  glfwCreateWindow : Bool
  glewInit : Bool
  LoadMap : String → Option Model × Option Model
  LoadWaterMap : String → Option Model
  LoadMapFile : String → Option ZoneMap
  LoadWaterMapfile : String → Option WaterMap
  FindBestZ : Option ZoneMap → Vec3 → ℚ
  InLiquid : Option WaterMap → ℚ → ℚ → ℚ → Bool
  argsRightToLeft : Bool

/-- What one pass of the loop body reads from outside: the camera location after
`cam.UpdateInputs`, ImGui's frame rate, whether each of the three check boxes
is clicked in this frame, the state of the Escape key and the close flag. -/
structure FrameInput where
  loc : Vec3
  framerate : ℚ
  click_c : Bool
  click_nc : Bool
  click_vol : Bool
  escape : Bool
  shouldClose : Bool

/-- The five pointers `main` holds after the loads (lines 71-78) and the zone name. -/
structure Loaded where
  filename : String
  collide : Option Model
  invis : Option Model
  volume : Option Model
  z_map : Option ZoneMap
  w_map : Option WaterMap
deriving DecidableEq

/-- The locals of `main` that live across frames (lines 91-94). -/
structure LoopState where
  rendering : Bool
  r_c : Bool
  r_nc : Bool
  r_vol : Bool
deriving DecidableEq

/-- Lines 26-29: `filename = "tutorialb"; if(argc >= 2) filename = argv[1];`,
with `argc` the length of `argv`. -/
def zoneName (argv : List String) : String :=
  let filename := "tutorialb"
  if 2 ≤ argv.length then argv.getD 1 filename else filename

/-- Lines 105-117: the readout block. -/
def readout (env : Env) (ld : Loaded) (loc : Vec3) (framerate : ℚ) : List Event :=
  [Event.text (TextLine.fps framerate),
   Event.text (TextLine.zone ld.filename),
   Event.text (TextLine.coords loc.x loc.z loc.y)] ++
  (if ld.z_map.isSome && ld.w_map.isSome then
    let qz := Query.FindBestZ ld.z_map (Vec3.mk loc.x loc.z loc.y)
    let qw := Query.InLiquid ld.w_map loc.x loc.z loc.y
    (if env.argsRightToLeft then [Event.query qw, Event.query qz]
     else [Event.query qz, Event.query qw]) ++
    [Event.text (TextLine.bestZAndLiquid
      (env.FindBestZ ld.z_map (Vec3.mk loc.x loc.z loc.y))
      (env.InLiquid ld.w_map loc.x loc.z loc.y))]
  else if ld.z_map.isSome then
    [Event.query (Query.FindBestZ ld.z_map (Vec3.mk loc.x loc.z loc.y)),
     Event.text (TextLine.bestZ (env.FindBestZ ld.z_map (Vec3.mk loc.x loc.z loc.y)))]
  else if ld.w_map.isSome then
    [Event.query (Query.InLiquid ld.w_map loc.x loc.z loc.y),
     Event.text (TextLine.inLiquid (env.InLiquid ld.w_map loc.x loc.z loc.y))]
  else [])

/-- The statement `if (p && flag) p->Draw();`. -/
def drawIf (p : Option Model) (flag : Bool) : List Event :=
  if p.isSome && flag then [Event.draw p] else []

/-- Lines 131-196: the rendering half of the loop body. -/
def render (ld : Loaded) (r_c r_nc r_vol : Bool) : List Event :=
  [Event.glClearAndState, Event.shaderUse, Event.glPolygonMode true, Event.setMVP,
   Event.setTint (4/5) (4/5) (4/5) 1] ++
  drawIf ld.collide r_c ++
  [Event.setTint (1/2) (7/10) 1 1] ++
  drawIf ld.invis r_nc ++
  [Event.glBlend true, Event.setTint 0 0 (4/5) (1/5)] ++
  drawIf ld.volume r_vol ++
  [Event.glBlend false, Event.glPolygonMode false, Event.setTint 0 0 0 0] ++
  drawIf ld.collide r_c ++
  drawIf ld.invis r_nc ++
  drawIf ld.volume r_vol ++
  [Event.glPolygonMode true, Event.glViewport, Event.imguiRender, Event.glfwSwapBuffers]

/-- Lines 121-126: each `ImGui::Checkbox` flips its flag when it is clicked. -/
def checkboxes (st : LoopState) (inp : FrameInput) : LoopState :=
  { st with
    r_c := xor st.r_c inp.click_c
    r_nc := xor st.r_nc inp.click_nc
    r_vol := xor st.r_vol inp.click_vol }

/-- The condition of line 128:
`glfwGetKey(win, GLFW_KEY_ESCAPE) == GLFW_PRESS || glfwWindowShouldClose(win) != 0`. -/
def exitRequested (inp : FrameInput) : Bool :=
  inp.escape || inp.shouldClose

/-- Lines 128-129: the exit test, which only clears `rendering`. -/
def exitTest (st : LoopState) (inp : FrameInput) : LoopState :=
  if exitRequested inp then { st with rendering := false } else st

/-- The state after one pass of the loop body (lines 96-196). -/
def frameState (st : LoopState) (inp : FrameInput) : LoopState :=
  exitTest (checkboxes st inp) inp

/-- The calls of one pass of the loop body (lines 96-196). -/
def frameEvents (env : Env) (ld : Loaded) (st : LoopState) (inp : FrameInput) :
    List Event :=
  let st1 := checkboxes st inp
  [Event.glfwGetTime, Event.camUpdateInputs, Event.glfwPollEvents, Event.imguiNewFrame] ++
  readout env ld inp.loc inp.framerate ++
  [Event.optionsWindow st1.r_c st1.r_nc st1.r_vol, Event.glfwGetKeyEscape] ++
  (if inp.escape then [] else [Event.glfwWindowShouldClose]) ++
  render ld st1.r_c st1.r_nc st1.r_vol

/-- The loop `do ... while (rendering)` (lines 95-197), run for at most `fuel`
passes on the inputs `inputs i, inputs (i+1), ...`. The result is the list of the
passes made, each with its calls, and whether the loop was left. -/
def frameLoop (env : Env) (ld : Loaded) (inputs : Nat → FrameInput) :
    Nat → Nat → LoopState → List (List Event) × Bool
  | 0, _, _ => ([], false)
  | fuel + 1, i, st =>
    let ev := frameEvents env ld st (inputs i)
    let st1 := frameState st (inputs i)
    if st1.rendering then
      let rest := frameLoop env ld inputs fuel (i + 1) st1
      (ev :: rest.1, rest.2)
    else ([ev], true)

/-- The statement `if (p) delete p;`. -/
def deleteIf (p : Option Model) : List Event :=
  match p with
  | some m => [Event.delete m]
  | none => []

/-- A run of `main`: the calls before the loop, the passes of the loop, the calls
after it, and the value returned (`none` while the loop has not been left). -/
structure Run where
  pre : List Event
  frames : List (List Event)
  post : List Event
  code : Option Int

/-- All calls of a run, in order. -/
def Run.trace (r : Run) : List Event :=
  r.pre ++ r.frames.flatten ++ r.post

/-- Lines 71-78: the four loads. -/
def load (env : Env) (filename : String) : Loaded :=
  { filename := filename
    collide := (env.LoadMap filename).1
    invis := (env.LoadMap filename).2
    volume := env.LoadWaterMap filename
    z_map := env.LoadMapFile filename
    w_map := env.LoadWaterMapfile filename }

/-- Lines 80-84: the two warnings. -/
def loadWarnings (ld : Loaded) : List Event :=
  (if ld.collide.isNone then
    [Event.logWarn "Couldn't load zone geometry from map file."] else []) ++
  (if ld.volume.isNone then
    [Event.logWarn "Couldn't load zone areas from map file."] else [])

/-- The locals of lines 91-94 at loop entry. -/
def initialLoopState : LoopState :=
  { rendering := true, r_c := true, r_nc := true, r_vol := true }

/-- The function `main` (lines 16-210). -/
def main (env : Env) (argv : List String) (inputs : Nat → FrameInput) (fuel : Nat) : Run :=
  if !env.glfwInit then
    { pre := [Event.eqLogStart, Event.glfwInit,
              Event.logFatal "Couldn't init graphical system."]
      frames := [], post := [], code := some (-1) }
  else
    let filename := zoneName argv
    if !env.glfwCreateWindow then
      { pre := [Event.eqLogStart, Event.glfwInit, Event.glfwWindowHints,
                Event.glfwCreateWindow,
                Event.logFatal "Couldn't create an OpenGL window.", Event.glfwTerminate]
        frames := [], post := [], code := some (-1) }
    else if !env.glewInit then
      { pre := [Event.eqLogStart, Event.glfwInit, Event.glfwWindowHints,
                Event.glfwCreateWindow, Event.glfwMakeContextCurrent, Event.glewInit,
                Event.logFatal "Couldn't init glew.", Event.glfwTerminate]
        frames := [], post := [], code := some (-1) }
    else
      let ld := load env filename
      let pre :=
        [Event.eqLogStart, Event.glfwInit, Event.glfwWindowHints,
         Event.glfwCreateWindow, Event.glfwMakeContextCurrent, Event.glewInit,
         Event.glfwSetInputModes, Event.shaderSetup,
         Event.LoadMap filename, Event.LoadWaterMap filename,
         Event.LoadMapFile filename, Event.LoadWaterMapfile filename] ++
        loadWarnings ld ++ [Event.cameraSetup, Event.imguiInit]
      let loop := frameLoop env ld inputs fuel 0 initialLoopState
      if loop.2 then
        { pre := pre, frames := loop.1,
          post := deleteIf ld.collide ++ deleteIf ld.invis ++ deleteIf ld.volume ++
                  [Event.glfwTerminate]
          code := some 0 }
      else
        { pre := pre, frames := loop.1, post := [], code := none }

/-! ### Observations on traces -/

/-- The queries among the calls of a trace, in order. -/
def queriesOf (evs : List Event) : List Query :=
  evs.filterMap (fun e => match e with
    | Event.query q => some q
    | _ => none)

/-- The text lines among the calls of a trace, in order. -/
def textsOf (evs : List Event) : List TextLine :=
  evs.filterMap (fun e => match e with
    | Event.text t => some t
    | _ => none)

/-- The pointers `Draw` is called through in a trace, in order. -/
def drawsOf (evs : List Event) : List (Option Model) :=
  evs.filterMap (fun e => match e with
    | Event.draw m => some m
    | _ => none)

/-- The zone names handed to the four loaders in a trace, in order. -/
def loadsOf (evs : List Event) : List String :=
  evs.filterMap (fun e => match e with
    | Event.LoadMap f => some f
    | Event.LoadWaterMap f => some f
    | Event.LoadMapFile f => some f
    | Event.LoadWaterMapfile f => some f
    | _ => none)

/-- Whether a query is a call of `FindBestZ`. -/
def Query.isFindBestZ : Query → Bool
  | Query.FindBestZ _ _ => true
  | _ => false

/-- Whether a query is a call of `InLiquid`. -/
def Query.isInLiquid : Query → Bool
  | Query.InLiquid _ _ _ _ => true
  | _ => false

/-- Whether a text line is one of the three lines of the readout's branch
(lines 109-117). -/
def TextLine.isBranchLine : TextLine → Bool
  | TextLine.bestZAndLiquid _ _ => true
  | TextLine.bestZ _ => true
  | TextLine.inLiquid _ => true
  | _ => false

/-- The locals of `main` at the start of pass `i + j` of the loop, when they are
`st` at the start of pass `i`. -/
def loopStateFrom (inputs : Nat → FrameInput) : Nat → LoopState → Nat → LoopState
  | _, st, 0 => st
  | i, st, j + 1 => loopStateFrom inputs (i + 1) (frameState st (inputs i)) j

/-- The calls of pass `j` of the loop in a run of `main`. -/
def passEvents (env : Env) (argv : List String) (inputs : Nat → FrameInput) (j : Nat) :
    List Event :=
  frameEvents env (load env (zoneName argv)) (loopStateFrom inputs 0 initialLoopState j)
    (inputs j)

/-- Whether a call that goes through a pointer goes through a non-null one
(calls that use no pointer pass). -/
def Event.derefOk : Event → Bool
  | Event.query (Query.FindBestZ h _) => h.isSome
  | Event.query (Query.InLiquid h _ _ _) => h.isSome
  | Event.query (Query.LineOfSight h _ _) => h.isSome
  | Event.draw m => m.isSome
  | _ => true

/-- Whether a call that is handed a zone name (one of the four loaders, or the
`Zone:` line of the readout) is handed the name `n` (other calls pass). -/
def Event.namesZone (n : String) : Event → Bool
  | Event.LoadMap f => f == n
  | Event.LoadWaterMap f => f == n
  | Event.LoadMapFile f => f == n
  | Event.LoadWaterMapfile f => f == n
  | Event.text (TextLine.zone f) => f == n
  | _ => true

/-- Whether a call is a fatal log message. -/
def Event.isFatal : Event → Bool
  | Event.logFatal _ => true
  | _ => false

/-- Whether all three start-up steps (lines 21, 43-44, 53) succeed. -/
def startupOk (env : Env) : Bool :=
  env.glfwInit && env.glfwCreateWindow && env.glewInit

/-! ### A sample session, used to instantiate the theorems -/

/-- A session in which start-up succeeds, the collidable model and both maps load,
and the invisible model and the volume model do not. -/
def sampleEnv : Env :=
  { glfwInit := true
    glfwCreateWindow := true
    glewInit := true
    LoadMap := fun _ => (some (Model.mk 1), none)
    LoadWaterMap := fun _ => none
    LoadMapFile := fun _ => some (ZoneMap.mk 7)
    LoadWaterMapfile := fun _ => some (WaterMap.mk 8)
    FindBestZ := fun _ v => v.z
    InLiquid := fun _ _ _ _ => false
    argsRightToLeft := false }

/-- The command line `map_view qeynos extra`. -/
def sampleArgv : List String := ["map_view", "qeynos", "extra"]

/-- Frame inputs with the camera at `(1, 2, 3)` and Escape pressed in pass 2. -/
def sampleInputs : Nat → FrameInput := fun i =>
  { loc := Vec3.mk 1 2 3
    framerate := 60
    click_c := false
    click_nc := false
    click_vol := false
    escape := i == 2
    shouldClose := false }

end MapView

namespace ZoneCore

/-! ## Part II. The query core, modelled from its specification -/

/-- Modelled from the spec: the `Vertex` of the data model, a 3-component position
with z vertical. The source of the core is not among the inspected files;
floating-point components are carried as exact rationals. -/
structure Vertex where
  x : ℚ
  y : ℚ
  z : ℚ
deriving DecidableEq

/-- Modelled from the spec: a `Triangle` of the collidable set, with its three
vertex indices already resolved to positions. -/
structure Triangle where
  a : Vertex
  b : Vertex
  c : Vertex
deriving DecidableEq

/-- Modelled from the spec: the `BoundingVolume`, an axis-aligned box given by
its min corner `lo` and max corner `hi`. -/
structure BoundingVolume where
  lo : Vertex
  hi : Vertex
deriving DecidableEq

/-- Modelled from the spec: the `IndexNode` of the spatial index, a leaf holding
a small list of triangles or an internal node with two children, each with the
bounding volume of what is below it. -/
inductive IndexNode
  | leaf (bounds : BoundingVolume) (tris : List Triangle)
  | node (bounds : BoundingVolume) (left right : IndexNode)

/-- Modelled from the spec: the construction-time conditions of the error
taxonomy. -/
inductive BuildError
  | EmptyGeometry
  | EmptyVolumeSet
deriving DecidableEq

/-- Modelled from the spec: the bounding volume of one triangle. -/
def Triangle.bounds (t : Triangle) : BoundingVolume :=
  { lo := Vertex.mk (min t.a.x (min t.b.x t.c.x)) (min t.a.y (min t.b.y t.c.y))
             (min t.a.z (min t.b.z t.c.z))
    hi := Vertex.mk (max t.a.x (max t.b.x t.c.x)) (max t.a.y (max t.b.y t.c.y))
             (max t.a.z (max t.b.z t.c.z)) }

/-- Modelled from the spec: the smallest bounding volume enclosing two. -/
def BoundingVolume.join (p q : BoundingVolume) : BoundingVolume :=
  { lo := Vertex.mk (min p.lo.x q.lo.x) (min p.lo.y q.lo.y) (min p.lo.z q.lo.z)
    hi := Vertex.mk (max p.hi.x q.hi.x) (max p.hi.y q.hi.y) (max p.hi.z q.hi.z) }

/-- Modelled from the spec: the bounding volume enclosing a list of triangles
(the empty box at the origin for no triangle). -/
def boundsOf : List Triangle → BoundingVolume
  | [] => BoundingVolume.mk (Vertex.mk 0 0 0) (Vertex.mk 0 0 0)
  | [t] => t.bounds
  | t :: ts => t.bounds.join (boundsOf ts)

/-- Modelled from the spec: whether the vertical column at `(x, y)` passes
through a bounding volume. -/
def BoundingVolume.containsColumn (bv : BoundingVolume) (x y : ℚ) : Bool :=
  decide (bv.lo.x ≤ x) && decide (x ≤ bv.hi.x) &&
  decide (bv.lo.y ≤ y) && decide (y ≤ bv.hi.y)

/-- Modelled from the spec: the bounding volume stored at a node. -/
def IndexNode.bounds : IndexNode → BoundingVolume
  | IndexNode.leaf bv _ => bv
  | IndexNode.node bv _ _ => bv

/-- Modelled from the spec: all triangles held below a node. -/
def IndexNode.triangles : IndexNode → List Triangle
  | IndexNode.leaf _ ts => ts
  | IndexNode.node _ l r => l.triangles ++ r.triangles

/-- Modelled from the spec: twice the signed area of a triangle's projection on
the horizontal plane; it is zero exactly when the triangle is edge-on to a
vertical ray. -/
def Triangle.det (t : Triangle) : ℚ :=
  (t.b.y - t.c.y) * (t.a.x - t.c.x) + (t.c.x - t.b.x) * (t.a.y - t.c.y)

/-- Modelled from the spec: the squared length of a triangle's normal, zero
exactly for a `DegenerateTriangle` (zero area). -/
def Triangle.normalSq (t : Triangle) : ℚ :=
  let ux := t.b.x - t.a.x
  let uy := t.b.y - t.a.y
  let uz := t.b.z - t.a.z
  let vx := t.c.x - t.a.x
  let vy := t.c.y - t.a.y
  let vz := t.c.z - t.a.z
  (uy * vz - uz * vy) ^ 2 + (uz * vx - ux * vz) ^ 2 + (ux * vy - uy * vx) ^ 2

/-- Modelled from the spec: a `DegenerateTriangle` has zero area. -/
def Triangle.degenerate (t : Triangle) : Bool :=
  decide (t.normalSq = 0)

/-- Modelled from the spec: the exact intersection of the vertical ray at
`(x, y)` with a triangle, by barycentric parametrization: the Z of the point of
the triangle above `(x, y)`, or nothing when the column misses the triangle or
the triangle is edge-on to it. -/
def columnHit (t : Triangle) (x y : ℚ) : Option ℚ :=
  if t.det = 0 then none
  else
    let l1 := ((t.b.y - t.c.y) * (x - t.c.x) + (t.c.x - t.b.x) * (y - t.c.y)) / t.det
    let l2 := ((t.c.y - t.a.y) * (x - t.c.x) + (t.a.x - t.c.x) * (y - t.c.y)) / t.det
    let l3 := 1 - l1 - l2
    if 0 ≤ l1 ∧ 0 ≤ l2 ∧ 0 ≤ l3 then some (l1 * t.a.z + l2 * t.b.z + l3 * t.c.z)
    else none

/-- Modelled from the spec: the three coordinate axes of the split heuristic. -/
inductive Axis
  | X
  | Y
  | Z
deriving DecidableEq

/-- Modelled from the spec: the longest axis of a bounding volume (the first of
X, Y, Z among equally long ones). -/
def BoundingVolume.longestAxis (bv : BoundingVolume) : Axis :=
  let dx := bv.hi.x - bv.lo.x
  let dy := bv.hi.y - bv.lo.y
  let dz := bv.hi.z - bv.lo.z
  if dy ≤ dx ∧ dz ≤ dx then Axis.X else if dz ≤ dy then Axis.Y else Axis.Z

/-- Modelled from the spec: three times the centroid coordinate of a triangle
along an axis (the factor does not change the order). -/
def Triangle.centroid3 (t : Triangle) : Axis → ℚ
  | Axis.X => t.a.x + t.b.x + t.c.x
  | Axis.Y => t.a.y + t.b.y + t.c.y
  | Axis.Z => t.a.z + t.b.z + t.c.z

/-- Modelled from the spec: the triangles ordered by centroid coordinate along
an axis; the insertion sort is stable, so equal centroids keep their original
order (the fixed tie-breaking rule). -/
def sortByCentroid (ax : Axis) (ts : List Triangle) : List Triangle :=
  ts.insertionSort (fun s t => s.centroid3 ax ≤ t.centroid3 ax)

/-- Modelled from the spec: top-down construction by median split on the longest
axis. A list of at most `cap` triangles becomes a leaf; `fuel` bounds the depth
and is the number of triangles at the root. -/
def buildNode (cap : Nat) : Nat → List Triangle → IndexNode
  | 0, ts => IndexNode.leaf (boundsOf ts) ts
  | fuel + 1, ts =>
    if ts.length ≤ max cap 1 then IndexNode.leaf (boundsOf ts) ts
    else
      let sorted := sortByCentroid (boundsOf ts).longestAxis ts
      IndexNode.node (boundsOf ts)
        (buildNode cap fuel (sorted.take (sorted.length / 2)))
        (buildNode cap fuel (sorted.drop (sorted.length / 2)))

/-- Modelled from the spec: `SpatialIndex.Build`. Degenerate triangles are
skipped; with nothing left to index it fails with `EmptyGeometry`. -/
def Build (cap : Nat) (triangles : List Triangle) : Except BuildError IndexNode :=
  let kept := triangles.filter (fun t => !t.degenerate)
  if kept.isEmpty then Except.error BuildError.EmptyGeometry
  else Except.ok (buildNode cap kept.length kept)

/-- Modelled from the spec: `SpatialIndex.QueryColumn`, the candidate triangles
for the vertical column at `(x, y)`: a subtree whose bounding volume the column
misses is pruned, the child whose box reaches higher is visited first, and a
leaf yields the triangles whose own bounding volume the column passes through. -/
def QueryColumn : IndexNode → ℚ → ℚ → List Triangle
  | IndexNode.leaf bv ts, x, y =>
    if bv.containsColumn x y then ts.filter (fun t => t.bounds.containsColumn x y) else []
  | IndexNode.node bv l r, x, y =>
    if bv.containsColumn x y then
      if r.bounds.hi.z ≤ l.bounds.hi.z then QueryColumn l x y ++ QueryColumn r x y
      else QueryColumn r x y ++ QueryColumn l x y
    else []

/-- Modelled from the spec: the `ZoneQueryEngine`, holding the index built over
the collidable triangles, or no index when there is no collidable mesh. -/
structure ZoneQueryEngine where
  index : Option IndexNode
  epsilon : ℚ

/-- Modelled from the spec: construction of the zone engine. `EmptyGeometry` is
not fatal: the engine is built without an index. -/
def ZoneQueryEngine.construct (cap : Nat) (epsilon : ℚ) (collidable : List Triangle) :
    Except BuildError ZoneQueryEngine :=
  match Build cap collidable with
  | Except.ok root => Except.ok { index := some root, epsilon := epsilon }
  | Except.error _ => Except.ok { index := none, epsilon := epsilon }

/-- Modelled from the spec: one step of the best-surface scan: a hit at or below
the starting height replaces the best so far when it is higher. -/
def keepBest (x y z : ℚ) (best : Option ℚ) (t : Triangle) : Option ℚ :=
  match columnHit t x y with
  | none => best
  | some h =>
    if h ≤ z then
      match best with
      | none => some h
      | some b => if b < h then some h else some b
    else best

/-- Modelled from the spec: `FindBestZ`. `none` is the `NoSurface` sentinel. -/
def ZoneQueryEngine.FindBestZ (e : ZoneQueryEngine) (x y z : ℚ) : Option ℚ :=
  match e.index with
  | none => none
  | some root => (QueryColumn root x y).foldl (keepBest x y z) none

/-- Modelled from the spec: the bounding volume of the segment from `a` to `b`. -/
def segmentBounds (a b : Vertex) : BoundingVolume :=
  { lo := Vertex.mk (min a.x b.x) (min a.y b.y) (min a.z b.z)
    hi := Vertex.mk (max a.x b.x) (max a.y b.y) (max a.z b.z) }

/-- Modelled from the spec: whether two bounding volumes intersect. -/
def BoundingVolume.overlaps (p q : BoundingVolume) : Bool :=
  decide (p.lo.x ≤ q.hi.x) && decide (q.lo.x ≤ p.hi.x) &&
  decide (p.lo.y ≤ q.hi.y) && decide (q.lo.y ≤ p.hi.y) &&
  decide (p.lo.z ≤ q.hi.z) && decide (q.lo.z ≤ p.hi.z)

/-- Modelled from the spec: the squared distance from a point to a bounding
volume, by which the traversal orders the children front to back. -/
def BoundingVolume.distSq (bv : BoundingVolume) (p : Vertex) : ℚ :=
  (max (max (bv.lo.x - p.x) (p.x - bv.hi.x)) 0) ^ 2 +
  (max (max (bv.lo.y - p.y) (p.y - bv.hi.y)) 0) ^ 2 +
  (max (max (bv.lo.z - p.z) (p.z - bv.hi.z)) 0) ^ 2

/-- Modelled from the spec: `SpatialIndex.QueryRay` for the bounded ray from `a`
to `b`: a subtree whose bounding volume the segment's box misses is pruned, the
nearer child is visited first, and a leaf yields the triangles whose own
bounding volume meets the segment's box. -/
def QueryRay : IndexNode → Vertex → Vertex → List Triangle
  | IndexNode.leaf bv ts, a, b =>
    if bv.overlaps (segmentBounds a b) then
      ts.filter (fun t => t.bounds.overlaps (segmentBounds a b))
    else []
  | IndexNode.node bv l r, a, b =>
    if bv.overlaps (segmentBounds a b) then
      if l.bounds.distSq a ≤ r.bounds.distSq a then QueryRay l a b ++ QueryRay r a b
      else QueryRay r a b ++ QueryRay l a b
    else []

/-- Modelled from the spec: the exact intersection test of the segment from `p`
to `q` with a triangle, by barycentric parametrization: whether the segment
crosses the triangle at a parameter strictly between the endpoints, `eps` away
from each. -/
def segmentHit (eps : ℚ) (t : Triangle) (p q : Vertex) : Bool :=
  let dx := q.x - p.x
  let dy := q.y - p.y
  let dz := q.z - p.z
  let e1x := t.b.x - t.a.x
  let e1y := t.b.y - t.a.y
  let e1z := t.b.z - t.a.z
  let e2x := t.c.x - t.a.x
  let e2y := t.c.y - t.a.y
  let e2z := t.c.z - t.a.z
  let hx := dy * e2z - dz * e2y
  let hy := dz * e2x - dx * e2z
  let hz := dx * e2y - dy * e2x
  let det := e1x * hx + e1y * hy + e1z * hz
  if det = 0 then false
  else
    let sx := p.x - t.a.x
    let sy := p.y - t.a.y
    let sz := p.z - t.a.z
    let u := (sx * hx + sy * hy + sz * hz) / det
    let qx := sy * e1z - sz * e1y
    let qy := sz * e1x - sx * e1z
    let qz := sx * e1y - sy * e1x
    let v := (dx * qx + dy * qy + dz * qz) / det
    let s := (e2x * qx + e2y * qy + e2z * qz) / det
    decide (0 ≤ u) && decide (0 ≤ v) && decide (u + v ≤ 1) &&
    decide (eps < s) && decide (s < 1 - eps)

/-- Modelled from the spec: the line-of-sight query: `true` ("unobstructed")
when no candidate triangle is crossed by the segment; the scan stops at the first
crossing. -/
def ZoneQueryEngine.LineOfSight (e : ZoneQueryEngine) (a b : Vertex) : Bool :=
  match e.index with
  | none => true
  | some root => !(QueryRay root a b).any (fun t => segmentHit e.epsilon t a b)

/-- Modelled from the spec: the liquid-type tag of a volume. -/
inductive LiquidType
  | water
  | lava
  | other (tag : Nat)
deriving DecidableEq

/-- Modelled from the spec: the region of a `LiquidVolume`, an axis-aligned box
or a convex polygon extruded over a vertical range. -/
inductive LiquidShape
  | box (lo hi : Vertex)
  | extrusion (polygon : List (ℚ × ℚ)) (zlo zhi : ℚ)
deriving DecidableEq

/-- Modelled from the spec: a `LiquidVolume`, a region with its liquid type. -/
structure LiquidVolume where
  shape : LiquidShape
  liquid : LiquidType
deriving DecidableEq

/-- Modelled from the spec: for each edge of a polygon, the cross product of the
edge with the vector from its start to `(x, y)`. -/
def edgeCrosses (polygon : List (ℚ × ℚ)) (x y : ℚ) : List ℚ :=
  (polygon.zip (polygon.rotate 1)).map (fun e =>
    (e.2.1 - e.1.1) * (y - e.1.2) - (e.2.2 - e.1.2) * (x - e.1.1))

/-- Modelled from the spec: point-in-polygon in the horizontal plane for a convex
polygon: the point is on the same side of every edge. -/
def pointInPolygon (polygon : List (ℚ × ℚ)) (x y : ℚ) : Bool :=
  decide (3 ≤ polygon.length) &&
  ((edgeCrosses polygon x y).all (fun c => decide (0 ≤ c)) ||
   (edgeCrosses polygon x y).all (fun c => decide (c ≤ 0)))

/-- Modelled from the spec: the geometric containment predicate of a volume:
three range comparisons for a box, point-in-polygon plus a vertical range check
for an extrusion. -/
def LiquidShape.contains : LiquidShape → Vertex → Bool
  | LiquidShape.box lo hi, p =>
    (decide (lo.x ≤ p.x) && decide (p.x ≤ hi.x)) &&
    (decide (lo.y ≤ p.y) && decide (p.y ≤ hi.y)) &&
    (decide (lo.z ≤ p.z) && decide (p.z ≤ hi.z))
  | LiquidShape.extrusion polygon zlo zhi, p =>
    pointInPolygon polygon p.x p.y && (decide (zlo ≤ p.z) && decide (p.z ≤ zhi))

/-- Modelled from the spec: the `WaterQueryEngine`, holding the liquid volumes in
list order. -/
structure WaterQueryEngine where
  volumes : List LiquidVolume

/-- Modelled from the spec: construction of the water engine. `EmptyVolumeSet`
is not fatal: the engine is built over no volume. -/
def WaterQueryEngine.construct (volumes : List LiquidVolume) :
    Except BuildError WaterQueryEngine :=
  Except.ok { volumes := volumes }

/-- Modelled from the spec: `InLiquid`: each volume's containment predicate is
tested in list order and the first volume that contains the point gives the
liquid type; `none` is `NotInLiquid`. -/
def WaterQueryEngine.InLiquid (e : WaterQueryEngine) (p : Vertex) : Option LiquidType :=
  match e.volumes.find? (fun v => v.shape.contains p) with
  | some v => some v.liquid
  | none => none

/-- Modelled from the spec: the `QueryFacade`, the two engines of one loaded zone. -/
structure QueryFacade where
  zone : ZoneQueryEngine
  water : WaterQueryEngine

/-- Modelled from the spec: construction of the facade from the load boundary's
collidable triangle list and liquid-volume list. -/
def QueryFacade.construct (cap : Nat) (epsilon : ℚ) (collidable : List Triangle)
    (volumes : List LiquidVolume) : Except BuildError QueryFacade :=
  match ZoneQueryEngine.construct cap epsilon collidable,
        WaterQueryEngine.construct volumes with
  | Except.ok z, Except.ok w => Except.ok { zone := z, water := w }
  | Except.error err, _ => Except.error err
  | _, Except.error err => Except.error err

/-- Modelled from the spec: `heightBelow(x, y, zHint) -> Z or NoSurface`. -/
def QueryFacade.heightBelow (f : QueryFacade) (x y zHint : ℚ) : Option ℚ :=
  f.zone.FindBestZ x y zHint

/-- Modelled from the spec: `isInLiquid(x, y, z) -> bool`. -/
def QueryFacade.isInLiquid (f : QueryFacade) (x y z : ℚ) : Bool :=
  (f.water.InLiquid (Vertex.mk x y z)).isSome

/-- Modelled from the spec: `lineOfSight(pointA, pointB) -> bool`, `true` for
"unobstructed". -/
def QueryFacade.lineOfSight (f : QueryFacade) (a b : Vertex) : Bool :=
  f.zone.LineOfSight a b

/-- The liquid box `[x: 0-10, y: 0-10, z: 0-5]` filled with water. -/
def sampleBox : LiquidVolume :=
  LiquidVolume.mk (LiquidShape.box (Vertex.mk 0 0 0) (Vertex.mk 10 10 5)) LiquidType.water

end ZoneCore

namespace MapView

/-! ## Theorems on the viewer -/

theorem frameState_rendering (st : LoopState) (inp : FrameInput) :
    (frameState st inp).rendering = (st.rendering && !exitRequested inp) := by
  unfold frameState exitTest checkboxes
  split <;> simp [*]

theorem frameLoop_exit (env : Env) (ld : Loaded) (inputs : Nat → FrameInput) :
    ∀ (n fuel i : Nat) (st : LoopState), st.rendering = true →
      (∀ j, j < n → exitRequested (inputs (i + j)) = false) →
      exitRequested (inputs (i + n)) = true → n < fuel →
      frameLoop env ld inputs fuel i st =
        ((List.range (n + 1)).map
          (fun j => frameEvents env ld (loopStateFrom inputs i st j) (inputs (i + j))), true) := by
  intro n
  induction n with
  | zero =>
    intro fuel i st hst _ hex hf
    obtain ⟨f, rfl⟩ : ∃ f, fuel = f + 1 := ⟨fuel - 1, by omega⟩
    have hr : (frameState st (inputs i)).rendering = false := by
      rw [frameState_rendering]; simp at hex; simp [hex]
    have h1 : List.range 1 = [0] := rfl
    simp [frameLoop, hr, loopStateFrom, h1]
  | succ n ih =>
    intro fuel i st hst hno hex hf
    obtain ⟨f, rfl⟩ : ∃ f, fuel = f + 1 := ⟨fuel - 1, by omega⟩
    have h0 : exitRequested (inputs i) = false := by simpa using hno 0 (by omega)
    have hr : (frameState st (inputs i)).rendering = true := by
      rw [frameState_rendering]; simp [hst, h0]
    have hrec := ih f (i + 1) (frameState st (inputs i)) hr
      (fun j hj => by have := hno (j + 1) (by omega); rwa [show i + 1 + j = i + (j + 1) by omega])
      (by rwa [show i + 1 + n = i + (n + 1) by omega]) (by omega)
    rw [frameLoop]
    simp only [hr, if_true, hrec]
    rw [List.range_succ_eq_map (n + 1)]
    simp [loopStateFrom, List.map_map, Function.comp, Nat.add_assoc, Nat.add_comm 1]

theorem frameLoop_running (env : Env) (ld : Loaded) (inputs : Nat → FrameInput) :
    ∀ (fuel i : Nat) (st : LoopState), st.rendering = true →
      (∀ j, j < fuel → exitRequested (inputs (i + j)) = false) →
      frameLoop env ld inputs fuel i st =
        ((List.range fuel).map
          (fun j => frameEvents env ld (loopStateFrom inputs i st j) (inputs (i + j))), false) := by
  intro fuel
  induction fuel with
  | zero => intro i st _ _; simp [frameLoop]
  | succ f ih =>
    intro i st hst hno
    have h0 : exitRequested (inputs i) = false := by simpa using hno 0 (by omega)
    have hr : (frameState st (inputs i)).rendering = true := by
      rw [frameState_rendering]; simp [hst, h0]
    have hrec := ih (i + 1) (frameState st (inputs i)) hr
      (fun j hj => by have := hno (j + 1) (by omega); rwa [show i + 1 + j = i + (j + 1) by omega])
    rw [frameLoop]
    simp only [hr, if_true, hrec]
    rw [List.range_succ_eq_map f]
    simp [loopStateFrom, List.map_map, Function.comp, Nat.add_assoc, Nat.add_comm 1]

theorem frameLoop_frames (env : Env) (ld : Loaded) (inputs : Nat → FrameInput)
    (fuel i : Nat) (st : LoopState) (hst : st.rendering = true) :
    ∃ m, m ≤ fuel ∧ (0 < fuel → 0 < m) ∧
      (frameLoop env ld inputs fuel i st).1 =
        (List.range m).map
          (fun j => frameEvents env ld (loopStateFrom inputs i st j) (inputs (i + j))) := by
  by_cases h : ∃ n, n < fuel ∧ exitRequested (inputs (i + n)) = true
  · classical
    have hmin := fun m => @Nat.find_min _ _ h m
    obtain ⟨hlt, hex⟩ := Nat.find_spec h
    refine ⟨Nat.find h + 1, by omega, fun _ => by omega, ?_⟩
    rw [frameLoop_exit env ld inputs (Nat.find h) fuel i st hst ?_ hex hlt]
    intro j hj
    have := hmin j hj
    simp only [not_and, Bool.not_eq_true] at this
    exact this (by omega)
  · refine ⟨fuel, le_refl _, fun hf => hf, ?_⟩
    rw [frameLoop_running env ld inputs fuel i st hst ?_]
    intro j hj
    simp only [not_exists, not_and, Bool.not_eq_true] at h
    exact h j hj

theorem main_frames_of_startup (env : Env) (argv : List String)
    (inputs : Nat → FrameInput) (fuel : Nat) (h : startupOk env = true) :
    (main env argv inputs fuel).frames =
      (frameLoop env (load env (zoneName argv)) inputs fuel 0 initialLoopState).1 := by
  simp only [startupOk, Bool.and_eq_true] at h
  obtain ⟨⟨h1, h2⟩, h3⟩ := h
  simp only [main, h1, h2, h3, Bool.not_true, Bool.false_eq_true, if_false]
  split <;> rfl

theorem main_of_startup_failure (env : Env) (argv : List String)
    (inputs : Nat → FrameInput) (fuel : Nat) (h : startupOk env = false) :
    (main env argv inputs fuel).frames = [] ∧ (main env argv inputs fuel).post = [] ∧
    (main env argv inputs fuel).code = some (-1) ∧
    loadsOf (main env argv inputs fuel).pre = [] := by
  unfold main
  cases h1 : env.glfwInit <;> cases h2 : env.glfwCreateWindow <;>
    cases h3 : env.glewInit <;> simp [startupOk, h1, h2, h3] at h ⊢ <;> simp [loadsOf]

theorem main_frames (env : Env) (argv : List String) (inputs : Nat → FrameInput)
    (fuel : Nat) :
    ∃ m, m ≤ fuel ∧ (startupOk env = true → 0 < fuel → 0 < m) ∧
      (main env argv inputs fuel).frames =
        (List.range m).map (passEvents env argv inputs) := by
  cases h : startupOk env
  · exact ⟨0, Nat.zero_le _, fun h0 => by simp at h0,
      by simp [(main_of_startup_failure env argv inputs fuel h).1]⟩
  · obtain ⟨m, hm, hpos, hfr⟩ :=
      frameLoop_frames env (load env (zoneName argv)) inputs fuel 0 initialLoopState rfl
    refine ⟨m, hm, fun _ hf => hpos hf, ?_⟩
    rw [main_frames_of_startup env argv inputs fuel h, hfr]
    apply List.map_congr_left
    intro j _
    simp [passEvents]

theorem queriesOf_append (a b : List Event) :
    queriesOf (a ++ b) = queriesOf a ++ queriesOf b := by
  simp [queriesOf, List.filterMap_append]

theorem queriesOf_drawIf (p : Option Model) (flag : Bool) :
    queriesOf (drawIf p flag) = [] := by
  unfold drawIf; split <;> simp [queriesOf]

theorem queriesOf_render (ld : Loaded) (a b c : Bool) :
    queriesOf (render ld a b c) = [] := by
  simp only [render, queriesOf_append, queriesOf_drawIf]
  rfl

theorem queriesOf_frameEvents (env : Env) (ld : Loaded) (st : LoopState)
    (inp : FrameInput) :
    queriesOf (frameEvents env ld st inp) =
      if ld.z_map.isSome && ld.w_map.isSome then
        (if env.argsRightToLeft then
          [Query.InLiquid ld.w_map inp.loc.x inp.loc.z inp.loc.y,
           Query.FindBestZ ld.z_map (Vec3.mk inp.loc.x inp.loc.z inp.loc.y)]
         else
          [Query.FindBestZ ld.z_map (Vec3.mk inp.loc.x inp.loc.z inp.loc.y),
           Query.InLiquid ld.w_map inp.loc.x inp.loc.z inp.loc.y])
      else if ld.z_map.isSome then
        [Query.FindBestZ ld.z_map (Vec3.mk inp.loc.x inp.loc.z inp.loc.y)]
      else if ld.w_map.isSome then
        [Query.InLiquid ld.w_map inp.loc.x inp.loc.z inp.loc.y]
      else [] := by
  simp only [frameEvents, queriesOf_append, queriesOf_render, List.append_nil]
  have h1 : ∀ l : List Event,
      queriesOf ([Event.glfwGetTime, Event.camUpdateInputs, Event.glfwPollEvents,
        Event.imguiNewFrame] ++ l) = queriesOf l := by
    intro l; simp [queriesOf]
  have h2 : queriesOf (if inp.escape = true then [] else [Event.glfwWindowShouldClose])
      = [] := by split <;> simp [queriesOf]
  have h3 : queriesOf [Event.optionsWindow (checkboxes st inp).r_c (checkboxes st inp).r_nc
      (checkboxes st inp).r_vol, Event.glfwGetKeyEscape] = [] := by simp [queriesOf]
  rw [h2, h3]
  simp only [List.append_nil]
  have h4 : queriesOf ([Event.glfwGetTime, Event.camUpdateInputs, Event.glfwPollEvents,
        Event.imguiNewFrame]) = [] := by simp [queriesOf]
  rw [h4, List.nil_append]
  unfold readout
  cases ld.z_map.isSome <;> cases ld.w_map.isSome <;> cases env.argsRightToLeft <;>
    simp [queriesOf]

theorem mem_main_frames (env : Env) (argv : List String) (inputs : Nat → FrameInput)
    (fuel : Nat) (f : List Event) (hf : f ∈ (main env argv inputs fuel).frames) :
    ∃ j, f = passEvents env argv inputs j := by
  obtain ⟨m, _, _, hfr⟩ := main_frames env argv inputs fuel
  rw [hfr, List.mem_map] at hf
  obtain ⟨j, _, hj⟩ := hf
  exact ⟨j, hj.symm⟩

/-- C4: in every frame of a run of `main`, `FindBestZ` is called exactly once when
the zone map is loaded and not at all otherwise, `InLiquid` is called exactly once
when the water map is loaded and not at all otherwise, and the frame issues no
other query: the number of queries is the sum of the two counts and none of them
is a line-of-sight query. -/
theorem queries_per_frame (env : Env) (argv : List String) (inputs : Nat → FrameInput)
    (fuel : Nat) :
    ∀ f ∈ (main env argv inputs fuel).frames,
      (queriesOf f).countP Query.isFindBestZ =
        (if (env.LoadMapFile (zoneName argv)).isSome then 1 else 0) ∧
      (queriesOf f).countP Query.isInLiquid =
        (if (env.LoadWaterMapfile (zoneName argv)).isSome then 1 else 0) ∧
      (queriesOf f).length =
        (if (env.LoadMapFile (zoneName argv)).isSome then 1 else 0) +
        (if (env.LoadWaterMapfile (zoneName argv)).isSome then 1 else 0) ∧
      ∀ h a b, Query.LineOfSight h a b ∉ queriesOf f := by
  intro f hf
  obtain ⟨j, rfl⟩ := mem_main_frames env argv inputs fuel f hf
  simp only [passEvents, queriesOf_frameEvents, load]
  cases env.LoadMapFile (zoneName argv) <;> cases env.LoadWaterMapfile (zoneName argv) <;>
    cases env.argsRightToLeft <;> simp [Query.isFindBestZ, Query.isInLiquid]

/-- C4 at the sample session: its first frame issues one `FindBestZ`, one
`InLiquid` and nothing else. -/
theorem queries_per_frame_witness :
    (queriesOf (passEvents sampleEnv sampleArgv sampleInputs 0)).countP Query.isFindBestZ = 1 ∧
    (queriesOf (passEvents sampleEnv sampleArgv sampleInputs 0)).countP Query.isInLiquid = 1 ∧
    (queriesOf (passEvents sampleEnv sampleArgv sampleInputs 0)).length = 2 ∧
    ∀ h a b, Query.LineOfSight h a b ∉
      queriesOf (passEvents sampleEnv sampleArgv sampleInputs 0) :=
  queries_per_frame sampleEnv sampleArgv sampleInputs 5
    (passEvents sampleEnv sampleArgv sampleInputs 0) (List.Mem.head _)

theorem textsOf_append (a b : List Event) :
    textsOf (a ++ b) = textsOf a ++ textsOf b := by
  simp [textsOf, List.filterMap_append]

theorem textsOf_drawIf (p : Option Model) (flag : Bool) :
    textsOf (drawIf p flag) = [] := by
  unfold drawIf; split <;> simp [textsOf]

theorem textsOf_render (ld : Loaded) (a b c : Bool) :
    textsOf (render ld a b c) = [] := by
  simp only [render, textsOf_append, textsOf_drawIf]
  rfl

theorem textsOf_frameEvents (env : Env) (ld : Loaded) (st : LoopState)
    (inp : FrameInput) :
    textsOf (frameEvents env ld st inp) =
      [TextLine.fps inp.framerate, TextLine.zone ld.filename,
       TextLine.coords inp.loc.x inp.loc.z inp.loc.y] ++
      (if ld.z_map.isSome && ld.w_map.isSome then
        [TextLine.bestZAndLiquid
          (env.FindBestZ ld.z_map (Vec3.mk inp.loc.x inp.loc.z inp.loc.y))
          (env.InLiquid ld.w_map inp.loc.x inp.loc.z inp.loc.y)]
      else if ld.z_map.isSome then
        [TextLine.bestZ (env.FindBestZ ld.z_map (Vec3.mk inp.loc.x inp.loc.z inp.loc.y))]
      else if ld.w_map.isSome then
        [TextLine.inLiquid (env.InLiquid ld.w_map inp.loc.x inp.loc.z inp.loc.y)]
      else []) := by
  simp only [frameEvents, textsOf_append, textsOf_render, List.append_nil]
  have h2 : textsOf (if inp.escape = true then [] else [Event.glfwWindowShouldClose])
      = [] := by split <;> simp [textsOf]
  have h3 : textsOf [Event.optionsWindow (checkboxes st inp).r_c (checkboxes st inp).r_nc
      (checkboxes st inp).r_vol, Event.glfwGetKeyEscape] = [] := by simp [textsOf]
  have h4 : textsOf ([Event.glfwGetTime, Event.camUpdateInputs, Event.glfwPollEvents,
        Event.imguiNewFrame]) = [] := by simp [textsOf]
  rw [h2, h3, h4]
  simp only [List.append_nil, List.nil_append]
  unfold readout
  cases ld.z_map.isSome <;> cases ld.w_map.isSome <;> cases env.argsRightToLeft <;>
    simp [textsOf]

theorem main_frames_getElem (env : Env) (argv : List String) (inputs : Nat → FrameInput)
    (fuel j : Nat) (hj : j < (main env argv inputs fuel).frames.length) :
    (main env argv inputs fuel).frames[j] = passEvents env argv inputs j := by
  obtain ⟨m, _, _, hfr⟩ := main_frames env argv inputs fuel
  have hjm : j < m := by simpa [hfr] using hj
  simp [hfr, hjm]

/-- C5: in frame `j` of a run of `main`, with `loc` the camera location of that
frame, the coordinate line of the readout shows `(loc.x, loc.z, loc.y)` and no
other triple, every `FindBestZ` call of the frame is asked at the vertex
`(loc.x, loc.z, loc.y)` and every `InLiquid` call at the point
`(loc.x, loc.z, loc.y)`, whichever maps are loaded. -/
theorem readout_swaps_y_and_z (env : Env) (argv : List String)
    (inputs : Nat → FrameInput) (fuel j : Nat)
    (hj : j < (main env argv inputs fuel).frames.length) :
    TextLine.coords (inputs j).loc.x (inputs j).loc.z (inputs j).loc.y ∈
      textsOf (main env argv inputs fuel).frames[j] ∧
    (∀ a b c, TextLine.coords a b c ∈ textsOf (main env argv inputs fuel).frames[j] →
      a = (inputs j).loc.x ∧ b = (inputs j).loc.z ∧ c = (inputs j).loc.y) ∧
    (∀ h v, Query.FindBestZ h v ∈ queriesOf (main env argv inputs fuel).frames[j] →
      v = Vec3.mk (inputs j).loc.x (inputs j).loc.z (inputs j).loc.y) ∧
    (∀ h x y z, Query.InLiquid h x y z ∈ queriesOf (main env argv inputs fuel).frames[j] →
      x = (inputs j).loc.x ∧ y = (inputs j).loc.z ∧ z = (inputs j).loc.y) := by
  rw [main_frames_getElem env argv inputs fuel j hj]
  simp only [passEvents, queriesOf_frameEvents, textsOf_frameEvents]
  refine ⟨by simp, ?_, ?_, ?_⟩
  · intro a b c
    cases (load env (zoneName argv)).z_map.isSome <;>
      cases (load env (zoneName argv)).w_map.isSome <;> simp
  · intro h v
    cases (load env (zoneName argv)).z_map.isSome <;>
      cases (load env (zoneName argv)).w_map.isSome <;>
      cases env.argsRightToLeft <;> simp
  · intro h x y z
    cases (load env (zoneName argv)).z_map.isSome <;>
      cases (load env (zoneName argv)).w_map.isSome <;>
      cases env.argsRightToLeft <;> simp

/-- C5 at the sample session, whose camera is at `(1, 2, 3)`: frame 1 displays
`1, 3, 2` and asks both queries there. -/
theorem readout_swaps_y_and_z_witness :
    TextLine.coords 1 3 2 ∈ textsOf (main sampleEnv sampleArgv sampleInputs 5).frames[1] ∧
    (∀ a b c, TextLine.coords a b c ∈
        textsOf (main sampleEnv sampleArgv sampleInputs 5).frames[1] →
      a = 1 ∧ b = 3 ∧ c = 2) ∧
    (∀ h v, Query.FindBestZ h v ∈
        queriesOf (main sampleEnv sampleArgv sampleInputs 5).frames[1] →
      v = Vec3.mk 1 3 2) ∧
    (∀ h x y z, Query.InLiquid h x y z ∈
        queriesOf (main sampleEnv sampleArgv sampleInputs 5).frames[1] →
      x = 1 ∧ y = 3 ∧ z = 2) :=
  readout_swaps_y_and_z sampleEnv sampleArgv sampleInputs 5 1 (by decide)

/-- C6: two frames with the same camera location and the same zone-map and
water-map pointers issue the same queries with the same arguments and write the
same branch line of the readout, whatever the three render check boxes hold,
whatever is clicked, and whichever of the models `collide`, `invis` and `volume`
are loaded. -/
theorem rendering_never_affects_queries (env : Env) (ld1 ld2 : Loaded)
    (st1 st2 : LoopState) (in1 in2 : FrameInput)
    (hloc : in1.loc = in2.loc) (hz : ld1.z_map = ld2.z_map) (hw : ld1.w_map = ld2.w_map) :
    queriesOf (frameEvents env ld1 st1 in1) = queriesOf (frameEvents env ld2 st2 in2) ∧
    (textsOf (frameEvents env ld1 st1 in1)).filter TextLine.isBranchLine =
      (textsOf (frameEvents env ld2 st2 in2)).filter TextLine.isBranchLine := by
  simp only [queriesOf_frameEvents, textsOf_frameEvents, hloc, hz, hw, true_and]
  cases ld2.z_map.isSome <;> cases ld2.w_map.isSome <;> simp [TextLine.isBranchLine]

theorem main_pre_of_startup (env : Env) (argv : List String)
    (inputs : Nat → FrameInput) (fuel : Nat) (h : startupOk env = true) :
    (main env argv inputs fuel).pre =
      [Event.eqLogStart, Event.glfwInit, Event.glfwWindowHints,
       Event.glfwCreateWindow, Event.glfwMakeContextCurrent, Event.glewInit,
       Event.glfwSetInputModes, Event.shaderSetup,
       Event.LoadMap (zoneName argv), Event.LoadWaterMap (zoneName argv),
       Event.LoadMapFile (zoneName argv), Event.LoadWaterMapfile (zoneName argv)] ++
      loadWarnings (load env (zoneName argv)) ++ [Event.cameraSetup, Event.imguiInit] := by
  simp only [startupOk, Bool.and_eq_true] at h
  obtain ⟨⟨h1, h2⟩, h3⟩ := h
  simp only [main, h1, h2, h3, Bool.not_true, Bool.false_eq_true, if_false]
  split <;> rfl

theorem main_post_code_of_startup (env : Env) (argv : List String)
    (inputs : Nat → FrameInput) (fuel : Nat) (h : startupOk env = true) :
    ((frameLoop env (load env (zoneName argv)) inputs fuel 0 initialLoopState).2 = true ∧
      (main env argv inputs fuel).post =
        deleteIf (load env (zoneName argv)).collide ++
        deleteIf (load env (zoneName argv)).invis ++
        deleteIf (load env (zoneName argv)).volume ++ [Event.glfwTerminate] ∧
      (main env argv inputs fuel).code = some 0) ∨
    ((frameLoop env (load env (zoneName argv)) inputs fuel 0 initialLoopState).2 = false ∧
      (main env argv inputs fuel).post = [] ∧
      (main env argv inputs fuel).code = none) := by
  simp only [startupOk, Bool.and_eq_true] at h
  obtain ⟨⟨h1, h2⟩, h3⟩ := h
  simp only [main, h1, h2, h3, Bool.not_true, Bool.false_eq_true, if_false]
  cases hl : (frameLoop env (load env (zoneName argv)) inputs fuel 0 initialLoopState).2 <;>
    simp

theorem main_pre_of_failure (env : Env) (argv : List String)
    (inputs : Nat → FrameInput) (fuel : Nat) (h : startupOk env = false) :
    (main env argv inputs fuel).pre =
        [Event.eqLogStart, Event.glfwInit,
         Event.logFatal "Couldn't init graphical system."] ∨
    (main env argv inputs fuel).pre =
        [Event.eqLogStart, Event.glfwInit, Event.glfwWindowHints, Event.glfwCreateWindow,
         Event.logFatal "Couldn't create an OpenGL window.", Event.glfwTerminate] ∨
    (main env argv inputs fuel).pre =
        [Event.eqLogStart, Event.glfwInit, Event.glfwWindowHints,
         Event.glfwCreateWindow, Event.glfwMakeContextCurrent, Event.glewInit,
         Event.logFatal "Couldn't init glew.", Event.glfwTerminate] := by
  unfold main
  cases h1 : env.glfwInit <;> cases h2 : env.glfwCreateWindow <;>
    cases h3 : env.glewInit <;> simp [startupOk, h1, h2, h3] at h ⊢

theorem mem_deleteIf (p : Option Model) (e : Event) (he : e ∈ deleteIf p) :
    ∃ m, e = Event.delete m := by
  cases p with
  | none => simp [deleteIf] at he
  | some m => exact ⟨m, by simpa [deleteIf] using he⟩

theorem mem_loadWarnings (ld : Loaded) (e : Event) (he : e ∈ loadWarnings ld) :
    ∃ msg, e = Event.logWarn msg := by
  unfold loadWarnings at he
  rw [List.mem_append] at he
  rcases he with he | he
  · split at he
    · exact ⟨_, by simpa using he⟩
    · simp at he
  · split at he
    · exact ⟨_, by simpa using he⟩
    · simp at he

/-- A property of calls that holds of the calls made outside the loop and of the
calls of every pass holds of every call of a run. -/
theorem main_trace_forall (P : Event → Prop) (env : Env) (argv : List String)
    (inputs : Nat → FrameInput) (fuel : Nat)
    (hpre : ∀ e ∈ (main env argv inputs fuel).pre, P e)
    (hframe : ∀ j, ∀ e ∈ passEvents env argv inputs j, P e)
    (hpost : ∀ e ∈ (main env argv inputs fuel).post, P e) :
    ∀ e ∈ (main env argv inputs fuel).trace, P e := by
  intro e he
  simp only [Run.trace, List.mem_append, List.mem_flatten] at he
  rcases he with (he | ⟨f, hf, hef⟩) | he
  · exact hpre e he
  · obtain ⟨j, rfl⟩ := mem_main_frames env argv inputs fuel f hf
    exact hframe j e hef
  · exact hpost e he

theorem main_outside_loop (env : Env) (argv : List String)
    (inputs : Nat → FrameInput) (fuel : Nat) (e : Event)
    (he : e ∈ (main env argv inputs fuel).pre ∨ e ∈ (main env argv inputs fuel).post) :
    e ∈ [Event.eqLogStart, Event.glfwInit, Event.glfwWindowHints,
         Event.glfwCreateWindow, Event.glfwMakeContextCurrent, Event.glewInit,
         Event.glfwSetInputModes, Event.shaderSetup, Event.cameraSetup, Event.imguiInit,
         Event.glfwTerminate,
         Event.LoadMap (zoneName argv), Event.LoadWaterMap (zoneName argv),
         Event.LoadMapFile (zoneName argv), Event.LoadWaterMapfile (zoneName argv)] ∨
    (∃ msg, e = Event.logWarn msg) ∨ (∃ msg, e = Event.logFatal msg) ∨
    (∃ m, e = Event.delete m) := by
  cases h : startupOk env
  · have hp := main_pre_of_failure env argv inputs fuel h
    have hq := (main_of_startup_failure env argv inputs fuel h).2.1
    rw [hq] at he
    rcases he with he | he
    · rcases hp with hp | hp | hp <;> rw [hp] at he <;>
        simp only [List.mem_cons, List.mem_singleton, List.not_mem_nil, or_false] at he
      · rcases he with rfl | rfl | rfl <;> simp
      · rcases he with rfl | rfl | rfl | rfl | rfl | rfl <;> simp
      · rcases he with rfl | rfl | rfl | rfl | rfl | rfl | rfl | rfl <;> simp
    · simp at he
  · rcases he with he | he
    · rw [main_pre_of_startup env argv inputs fuel h] at he
      simp only [List.mem_append] at he
      rcases he with (he | he) | he
      · left
        simp only [List.mem_cons, List.mem_singleton, List.not_mem_nil, or_false] at he ⊢
        tauto
      · exact Or.inr (Or.inl (mem_loadWarnings _ e he))
      · left
        simp only [List.mem_cons, List.mem_singleton, List.not_mem_nil, or_false] at he ⊢
        tauto
    · rcases main_post_code_of_startup env argv inputs fuel h with ⟨_, hp, _⟩ | ⟨_, hp, _⟩
      · rw [hp] at he
        simp only [List.mem_append, List.mem_singleton] at he
        rcases he with ((he | he) | he) | he
        · exact Or.inr (Or.inr (Or.inr (mem_deleteIf _ e he)))
        · exact Or.inr (Or.inr (Or.inr (mem_deleteIf _ e he)))
        · exact Or.inr (Or.inr (Or.inr (mem_deleteIf _ e he)))
        · left; simp [he]
      · rw [hp] at he; simp at he

theorem all_derefOk_drawIf (p : Option Model) (flag : Bool) :
    (drawIf p flag).all Event.derefOk = true := by
  cases p <;> cases flag <;> simp [drawIf, Event.derefOk]

theorem all_derefOk_readout (env : Env) (ld : Loaded) (loc : Vec3) (fr : ℚ) :
    (readout env ld loc fr).all Event.derefOk = true := by
  unfold readout
  cases hz : ld.z_map.isSome <;> cases hw : ld.w_map.isSome <;>
    cases hr : env.argsRightToLeft <;> simp [Event.derefOk, hz, hw]

theorem derefOk_frameEvents (env : Env) (ld : Loaded) (st : LoopState)
    (inp : FrameInput) :
    ∀ e ∈ frameEvents env ld st inp, e.derefOk = true := by
  have h : (frameEvents env ld st inp).all Event.derefOk = true := by
    simp only [frameEvents, render, List.all_append, all_derefOk_drawIf,
      all_derefOk_readout]
    cases inp.escape <;> simp [Event.derefOk]
  exact fun e he => List.all_eq_true.mp h e he

theorem all_notFatal_drawIf (p : Option Model) (flag : Bool) :
    (drawIf p flag).all (fun e => !e.isFatal) = true := by
  cases p <;> cases flag <;> simp [drawIf, Event.isFatal]

theorem all_notFatal_readout (env : Env) (ld : Loaded) (loc : Vec3) (fr : ℚ) :
    (readout env ld loc fr).all (fun e => !e.isFatal) = true := by
  unfold readout
  cases hz : ld.z_map.isSome <;> cases hw : ld.w_map.isSome <;>
    cases hr : env.argsRightToLeft <;> simp [Event.isFatal]

theorem notFatal_frameEvents (env : Env) (ld : Loaded) (st : LoopState)
    (inp : FrameInput) :
    ∀ e ∈ frameEvents env ld st inp, e.isFatal = false := by
  have h : (frameEvents env ld st inp).all (fun e => !e.isFatal) = true := by
    simp only [frameEvents, render, List.all_append, all_notFatal_drawIf,
      all_notFatal_readout]
    cases inp.escape <;> simp [Event.isFatal]
  intro e he
  simpa using List.all_eq_true.mp h e he

/-- C7: in every run of `main`, whatever the loads return, each `FindBestZ` call
goes through a non-null zone-map pointer, each `InLiquid` call through a non-null
water-map pointer and each `Draw` call through a non-null model pointer; and when
start-up succeeds, a null `collide` or a null `volume` puts its warning in the
log, no fatal message is logged, `main` does not return -1 and, the loop being
entered, at least one frame runs. -/
theorem absent_handle_never_used (env : Env) (argv : List String)
    (inputs : Nat → FrameInput) (fuel : Nat) :
    (∀ e ∈ (main env argv inputs fuel).trace,
      (∀ h v, e = Event.query (Query.FindBestZ h v) → h.isSome = true) ∧
      (∀ h x y z, e = Event.query (Query.InLiquid h x y z) → h.isSome = true) ∧
      (∀ m, e = Event.draw m → m.isSome = true)) ∧
    (startupOk env = true →
      ((env.LoadMap (zoneName argv)).1 = none →
        Event.logWarn "Couldn't load zone geometry from map file." ∈
          (main env argv inputs fuel).pre) ∧
      (env.LoadWaterMap (zoneName argv) = none →
        Event.logWarn "Couldn't load zone areas from map file." ∈
          (main env argv inputs fuel).pre) ∧
      (∀ e ∈ (main env argv inputs fuel).trace, e.isFatal = false) ∧
      (main env argv inputs fuel).code ≠ some (-1) ∧
      (0 < fuel → (main env argv inputs fuel).frames ≠ [])) := by
  have hall : ∀ e ∈ (main env argv inputs fuel).trace, e.derefOk = true := by
    apply main_trace_forall
    · intro e he
      rcases main_outside_loop env argv inputs fuel e (Or.inl he) with h | ⟨_, rfl⟩ |
        ⟨_, rfl⟩ | ⟨_, rfl⟩
      · simp only [List.mem_cons, List.mem_singleton, List.not_mem_nil, or_false] at h
        rcases h with rfl | rfl | rfl | rfl | rfl | rfl | rfl | rfl | rfl | rfl | rfl |
          rfl | rfl | rfl | rfl <;> rfl
      all_goals rfl
    · intro j e he
      exact derefOk_frameEvents _ _ _ _ e he
    · intro e he
      rcases main_outside_loop env argv inputs fuel e (Or.inr he) with h | ⟨_, rfl⟩ |
        ⟨_, rfl⟩ | ⟨_, rfl⟩
      · simp only [List.mem_cons, List.mem_singleton, List.not_mem_nil, or_false] at h
        rcases h with rfl | rfl | rfl | rfl | rfl | rfl | rfl | rfl | rfl | rfl | rfl |
          rfl | rfl | rfl | rfl <;> rfl
      all_goals rfl
  refine ⟨fun e he => ⟨?_, ?_, ?_⟩, fun hs => ⟨?_, ?_, ?_, ?_, ?_⟩⟩
  · intro h v hq; have := hall e he; rw [hq] at this; simpa [Event.derefOk] using this
  · intro h x y z hq; have := hall e he; rw [hq] at this; simpa [Event.derefOk] using this
  · intro m hq; have := hall e he; rw [hq] at this; simpa [Event.derefOk] using this
  · intro hc
    rw [main_pre_of_startup env argv inputs fuel hs]
    simp [loadWarnings, load, hc]
  · intro hv
    rw [main_pre_of_startup env argv inputs fuel hs]
    simp [loadWarnings, load, hv]
  · apply main_trace_forall
    · intro e he
      rw [main_pre_of_startup env argv inputs fuel hs] at he
      simp only [List.mem_append] at he
      rcases he with (he | he) | he
      · simp only [List.mem_cons, List.mem_singleton, List.not_mem_nil, or_false] at he
        rcases he with rfl | rfl | rfl | rfl | rfl | rfl | rfl | rfl | rfl | rfl | rfl |
          rfl <;> rfl
      · obtain ⟨_, rfl⟩ := mem_loadWarnings _ e he; rfl
      · simp only [List.mem_cons, List.mem_singleton, List.not_mem_nil, or_false] at he
        rcases he with rfl | rfl <;> rfl
    · intro j e he
      exact notFatal_frameEvents _ _ _ _ e he
    · intro e he
      rcases main_post_code_of_startup env argv inputs fuel hs with ⟨_, hp, _⟩ | ⟨_, hp, _⟩
      · rw [hp] at he
        simp only [List.mem_append, List.mem_singleton] at he
        rcases he with ((he | he) | he) | he
        · obtain ⟨_, rfl⟩ := mem_deleteIf _ e he; rfl
        · obtain ⟨_, rfl⟩ := mem_deleteIf _ e he; rfl
        · obtain ⟨_, rfl⟩ := mem_deleteIf _ e he; rfl
        · rw [he]; rfl
      · rw [hp] at he; simp at he
  · rcases main_post_code_of_startup env argv inputs fuel hs with ⟨_, _, hc⟩ | ⟨_, _, hc⟩ <;>
      simp [hc]
  · intro hf
    obtain ⟨m, _, hpos, hfr⟩ := main_frames env argv inputs fuel
    have := hpos hs hf
    rw [hfr]
    intro hnil
    have hlen := congrArg List.length hnil
    simp at hlen
    omega

theorem frameLoop_left_iff (env : Env) (ld : Loaded) (inputs : Nat → FrameInput)
    (fuel : Nat) :
    (frameLoop env ld inputs fuel 0 initialLoopState).2 = true ↔
      ∃ k, k < fuel ∧ exitRequested (inputs k) = true := by
  constructor
  · intro hl
    by_contra hno
    simp only [not_exists, not_and, Bool.not_eq_true] at hno
    rw [frameLoop_running env ld inputs fuel 0 initialLoopState rfl
      (fun j hj => by simpa using hno j hj)] at hl
    simp at hl
  · intro h
    classical
    have hmin := fun m => @Nat.find_min _ _ h m
    obtain ⟨hlt, hex⟩ := Nat.find_spec h
    rw [frameLoop_exit env ld inputs (Nat.find h) fuel 0 initialLoopState rfl ?_
      (by simpa using hex) hlt]
    intro j hj
    have := hmin j hj
    simp only [not_and, Bool.not_eq_true] at this
    simpa using this (by omega)

/-- C8: `main` returns -1 exactly when one of the three start-up steps
(`glfwInit`, the window creation, `glewInit`) fails, and then no loader is called
and no frame runs; when all three succeed, `main` returns 0 exactly when the frame
loop is left (an exit is requested in a frame the run reaches), whatever the four
loads return, and it returns nothing else. -/
theorem main_return_value (env : Env) (argv : List String)
    (inputs : Nat → FrameInput) (fuel : Nat) :
    ((main env argv inputs fuel).code = some (-1) ↔
      (env.glfwInit = false ∨ env.glfwCreateWindow = false ∨ env.glewInit = false)) ∧
    ((main env argv inputs fuel).code = some (-1) →
      loadsOf (main env argv inputs fuel).trace = [] ∧
      (main env argv inputs fuel).frames = []) ∧
    ((env.glfwInit = true ∧ env.glfwCreateWindow = true ∧ env.glewInit = true) →
      ((main env argv inputs fuel).code = some 0 ↔
        ∃ k, k < fuel ∧ exitRequested (inputs k) = true) ∧
      ((main env argv inputs fuel).code = some 0 ∨
        (main env argv inputs fuel).code = none)) := by
  cases hs : startupOk env
  · obtain ⟨hfr, hpost, hcode, hloads⟩ := main_of_startup_failure env argv inputs fuel hs
    refine ⟨?_, ?_, ?_⟩
    · rw [hcode]
      simp only [true_iff]
      cases h1 : env.glfwInit <;> cases h2 : env.glfwCreateWindow <;>
        cases h3 : env.glewInit <;> simp [startupOk, h1, h2, h3] at hs ⊢
    · intro _
      refine ⟨?_, hfr⟩
      simp only [Run.trace, hfr, hpost, List.flatten_nil, List.append_nil]
      exact hloads
    · rintro ⟨h1, h2, h3⟩
      simp [startupOk, h1, h2, h3] at hs
  · have hs3 : env.glfwInit = true ∧ env.glfwCreateWindow = true ∧ env.glewInit = true := by
      simp only [startupOk, Bool.and_eq_true] at hs
      exact ⟨hs.1.1, hs.1.2, hs.2⟩
    have hiff := frameLoop_left_iff env (load env (zoneName argv)) inputs fuel
    rcases main_post_code_of_startup env argv inputs fuel hs with ⟨hl, _, hc⟩ | ⟨hl, _, hc⟩
    · refine ⟨?_, ?_, ?_⟩
      · rw [hc]; simp [hs3.1, hs3.2.1, hs3.2.2]
      · rw [hc]; intro h; simp at h
      · intro _
        rw [hc]
        exact ⟨⟨fun _ => hiff.mp hl, fun _ => rfl⟩, Or.inl rfl⟩
    · refine ⟨?_, ?_, ?_⟩
      · rw [hc]; simp [hs3.1, hs3.2.1, hs3.2.2]
      · rw [hc]; intro h; simp at h
      · intro _
        rw [hc]
        refine ⟨⟨fun h => by simp at h, fun h => ?_⟩, Or.inr rfl⟩
        have := hiff.mpr h
        rw [hl] at this
        simp at this

/-- C8 at the sample session (start-up succeeds, Escape in pass 2): with fuel for
five passes `main` returns 0, and with `glewInit` failing it returns -1 without
loading a map or running a frame. -/
theorem main_return_value_witness :
    (main sampleEnv sampleArgv sampleInputs 5).code = some 0 ∧
    (main { sampleEnv with glewInit := false } sampleArgv sampleInputs 5).code = some (-1) ∧
    loadsOf (main { sampleEnv with glewInit := false } sampleArgv sampleInputs 5).trace = [] ∧
    (main { sampleEnv with glewInit := false } sampleArgv sampleInputs 5).frames = [] :=
  ⟨((main_return_value sampleEnv sampleArgv sampleInputs 5).2.2 ⟨rfl, rfl, rfl⟩).1.mpr
      ⟨2, by decide, rfl⟩,
   (main_return_value { sampleEnv with glewInit := false } sampleArgv sampleInputs 5).1.mpr
      (Or.inr (Or.inr rfl)),
   ((main_return_value { sampleEnv with glewInit := false } sampleArgv sampleInputs 5).2.1
      rfl).1,
   ((main_return_value { sampleEnv with glewInit := false } sampleArgv sampleInputs 5).2.1
      rfl).2⟩

theorem all_namesZone_drawIf (n : String) (p : Option Model) (flag : Bool) :
    (drawIf p flag).all (Event.namesZone n) = true := by
  cases p <;> cases flag <;> simp [drawIf, Event.namesZone]

theorem all_namesZone_readout (env : Env) (ld : Loaded) (loc : Vec3) (fr : ℚ) :
    (readout env ld loc fr).all (Event.namesZone ld.filename) = true := by
  unfold readout
  cases hz : ld.z_map.isSome <;> cases hw : ld.w_map.isSome <;>
    cases hr : env.argsRightToLeft <;> simp [Event.namesZone]

theorem namesZone_frameEvents (env : Env) (ld : Loaded) (st : LoopState)
    (inp : FrameInput) :
    ∀ e ∈ frameEvents env ld st inp, e.namesZone ld.filename = true := by
  have h : (frameEvents env ld st inp).all (Event.namesZone ld.filename) = true := by
    simp only [frameEvents, render, List.all_append, all_namesZone_drawIf,
      all_namesZone_readout]
    cases inp.escape <;> simp [Event.namesZone]
  exact fun e he => List.all_eq_true.mp h e he

theorem zoneName_take (argv : List String) : zoneName (argv.take 2) = zoneName argv := by
  match argv with
  | [] => rfl
  | [_] => rfl
  | _ :: _ :: _ => simp [zoneName]

/-- C9: the zone name is `argv[1]` when `argc >= 2` and `"tutorialb"` otherwise;
every loader call and every `Zone:` line of a run is handed that name; when
start-up succeeds all four loaders are called with it and every frame shows it;
and arguments after the first change nothing in the run. -/
theorem one_zone_name (env : Env) (argv : List String)
    (inputs : Nat → FrameInput) (fuel : Nat) :
    (∀ h : 1 < argv.length, zoneName argv = argv[1]) ∧
    (argv.length < 2 → zoneName argv = "tutorialb") ∧
    (∀ e ∈ (main env argv inputs fuel).trace, ∀ f,
      (e = Event.LoadMap f ∨ e = Event.LoadWaterMap f ∨ e = Event.LoadMapFile f ∨
        e = Event.LoadWaterMapfile f ∨ e = Event.text (TextLine.zone f)) →
      f = zoneName argv) ∧
    (startupOk env = true →
      Event.LoadMap (zoneName argv) ∈ (main env argv inputs fuel).pre ∧
      Event.LoadWaterMap (zoneName argv) ∈ (main env argv inputs fuel).pre ∧
      Event.LoadMapFile (zoneName argv) ∈ (main env argv inputs fuel).pre ∧
      Event.LoadWaterMapfile (zoneName argv) ∈ (main env argv inputs fuel).pre ∧
      ∀ fr ∈ (main env argv inputs fuel).frames,
        TextLine.zone (zoneName argv) ∈ textsOf fr) ∧
    main env argv inputs fuel = main env (argv.take 2) inputs fuel := by
  have hall : ∀ e ∈ (main env argv inputs fuel).trace,
      e.namesZone (zoneName argv) = true := by
    have hout : ∀ e, (e ∈ (main env argv inputs fuel).pre ∨
        e ∈ (main env argv inputs fuel).post) → e.namesZone (zoneName argv) = true := by
      intro e he
      rcases main_outside_loop env argv inputs fuel e he with h | ⟨_, rfl⟩ |
        ⟨_, rfl⟩ | ⟨_, rfl⟩
      · simp only [List.mem_cons, List.mem_singleton, List.not_mem_nil, or_false] at h
        rcases h with rfl | rfl | rfl | rfl | rfl | rfl | rfl | rfl | rfl | rfl | rfl |
          rfl | rfl | rfl | rfl <;> simp [Event.namesZone]
      all_goals rfl
    apply main_trace_forall
    · exact fun e he => hout e (Or.inl he)
    · intro j e he
      exact namesZone_frameEvents env (load env (zoneName argv)) _ _ e he
    · exact fun e he => hout e (Or.inr he)
  refine ⟨?_, ?_, ?_, ?_, ?_⟩
  · intro h
    have h2 : 2 ≤ argv.length := h
    simp [zoneName, h2, List.getD_eq_getElem?_getD, List.getElem?_eq_getElem h]
  · intro h
    have h2 : ¬ 2 ≤ argv.length := by omega
    simp [zoneName, h2]
  · intro e he f hf
    have := hall e he
    rcases hf with rfl | rfl | rfl | rfl | rfl <;> simpa [Event.namesZone] using this
  · intro hs
    rw [main_pre_of_startup env argv inputs fuel hs]
    refine ⟨by simp, by simp, by simp, by simp, ?_⟩
    intro fr hfr
    obtain ⟨j, rfl⟩ := mem_main_frames env argv inputs fuel fr hfr
    simp [passEvents, textsOf_frameEvents, load]
  · simp only [main, zoneName_take]

/-- C9 at the sample command line `map_view qeynos extra`: the name is `qeynos`,
the loaders are called with it, and the run is the run of `map_view qeynos`. -/
theorem one_zone_name_witness :
    zoneName sampleArgv = "qeynos" ∧
    Event.LoadMap "qeynos" ∈ (main sampleEnv sampleArgv sampleInputs 5).pre ∧
    Event.LoadWaterMapfile "qeynos" ∈ (main sampleEnv sampleArgv sampleInputs 5).pre ∧
    main sampleEnv sampleArgv sampleInputs 5 =
      main sampleEnv ["map_view", "qeynos"] sampleInputs 5 :=
  ⟨(one_zone_name sampleEnv sampleArgv sampleInputs 5).1 (by decide),
   ((one_zone_name sampleEnv sampleArgv sampleInputs 5).2.2.2.1 rfl).1,
   ((one_zone_name sampleEnv sampleArgv sampleInputs 5).2.2.2.1 rfl).2.2.2.1,
   (one_zone_name sampleEnv sampleArgv sampleInputs 5).2.2.2.2⟩

theorem main_frames_of_exit (env : Env) (argv : List String)
    (inputs : Nat → FrameInput) (fuel k : Nat) (hs : startupOk env = true)
    (hk : k < fuel) (hex : exitRequested (inputs k) = true)
    (hfirst : ∀ j, j < k → exitRequested (inputs j) = false) :
    (main env argv inputs fuel).frames = (List.range (k + 1)).map (passEvents env argv inputs) ∧
    (frameLoop env (load env (zoneName argv)) inputs fuel 0 initialLoopState).2 = true := by
  have h := frameLoop_exit env (load env (zoneName argv)) inputs k fuel 0 initialLoopState rfl
    (fun j hj => by simpa using hfirst j hj) (by simpa using hex) hk
  rw [main_frames_of_startup env argv inputs fuel hs, h]
  refine ⟨?_, rfl⟩
  apply List.map_congr_left
  intro j _
  simp [passEvents]

theorem frameEvents_getLast (env : Env) (ld : Loaded) (st : LoopState) (inp : FrameInput) :
    (frameEvents env ld st inp).getLast? = some Event.glfwSwapBuffers := by
  simp only [frameEvents, render]
  rw [← List.append_assoc, ← List.append_assoc, ← List.append_assoc]
  rw [show [Event.glPolygonMode true, Event.glViewport, Event.imguiRender,
      Event.glfwSwapBuffers] = [Event.glPolygonMode true, Event.glViewport,
      Event.imguiRender] ++ [Event.glfwSwapBuffers] from rfl]
  rw [← List.append_assoc, List.getLast?_append]
  rfl

/-- C10: once start-up has succeeded and the loop is entered, at least one frame
runs. If frame `k` is the first in which Escape is pressed or the close flag is
set, the run consists of exactly the frames `0, ..., k`, the last of which is
complete (each loaded model whose check box is set is drawn, the UI is rendered
and the buffers are swapped last), then the shutdown calls and the return of 0.
If no exit is requested in any frame the run reaches, the loop is not left. -/
theorem loop_stops_after_first_exit_frame (env : Env) (argv : List String)
    (inputs : Nat → FrameInput) (fuel : Nat)
    (hs : startupOk env = true) (hfuel : 0 < fuel) :
    (main env argv inputs fuel).frames ≠ [] ∧
    (∀ k, k < fuel → exitRequested (inputs k) = true →
      (∀ j, j < k → exitRequested (inputs j) = false) →
      (main env argv inputs fuel).frames =
        (List.range (k + 1)).map (passEvents env argv inputs) ∧
      (main env argv inputs fuel).frames.length = k + 1 ∧
      (main env argv inputs fuel).frames.getLast? = some (passEvents env argv inputs k) ∧
      (∀ m, (load env (zoneName argv)).collide = some m →
        (checkboxes (loopStateFrom inputs 0 initialLoopState k) (inputs k)).r_c = true →
        Event.draw (some m) ∈ passEvents env argv inputs k) ∧
      (∀ m, (load env (zoneName argv)).invis = some m →
        (checkboxes (loopStateFrom inputs 0 initialLoopState k) (inputs k)).r_nc = true →
        Event.draw (some m) ∈ passEvents env argv inputs k) ∧
      (∀ m, (load env (zoneName argv)).volume = some m →
        (checkboxes (loopStateFrom inputs 0 initialLoopState k) (inputs k)).r_vol = true →
        Event.draw (some m) ∈ passEvents env argv inputs k) ∧
      Event.imguiRender ∈ passEvents env argv inputs k ∧
      (passEvents env argv inputs k).getLast? = some Event.glfwSwapBuffers ∧
      (main env argv inputs fuel).post =
        deleteIf (load env (zoneName argv)).collide ++
        deleteIf (load env (zoneName argv)).invis ++
        deleteIf (load env (zoneName argv)).volume ++ [Event.glfwTerminate] ∧
      (main env argv inputs fuel).code = some 0) ∧
    ((∀ j, j < fuel → exitRequested (inputs j) = false) →
      (main env argv inputs fuel).frames.length = fuel ∧
      (main env argv inputs fuel).code = none) := by
  refine ⟨?_, ?_, ?_⟩
  · obtain ⟨m, _, hpos, hfr⟩ := main_frames env argv inputs fuel
    have := hpos hs hfuel
    rw [hfr]
    intro hnil
    have hlen := congrArg List.length hnil
    simp at hlen
    omega
  · intro k hk hex hfirst
    obtain ⟨hfr, hl⟩ := main_frames_of_exit env argv inputs fuel k hs hk hex hfirst
    refine ⟨hfr, by simp [hfr], ?_, ?_, ?_, ?_, ?_, ?_, ?_, ?_⟩
    · rw [hfr, List.range_succ, List.map_append]
      simp
    · intro m hm hc
      simp [passEvents, frameEvents, render, drawIf, hm, hc]
    · intro m hm hc
      simp [passEvents, frameEvents, render, drawIf, hm, hc]
    · intro m hm hc
      simp [passEvents, frameEvents, render, drawIf, hm, hc]
    · simp [passEvents, frameEvents, render]
    · exact frameEvents_getLast _ _ _ _
    · rcases main_post_code_of_startup env argv inputs fuel hs with ⟨_, hp, _⟩ | ⟨hl2, _, _⟩
      · exact hp
      · rw [hl] at hl2; simp at hl2
    · rcases main_post_code_of_startup env argv inputs fuel hs with ⟨_, _, hc⟩ | ⟨hl2, _, _⟩
      · exact hc
      · rw [hl] at hl2; simp at hl2
  · intro hno
    have h := frameLoop_running env (load env (zoneName argv)) inputs fuel 0
      initialLoopState rfl (fun j hj => by simpa using hno j hj)
    refine ⟨?_, ?_⟩
    · rw [main_frames_of_startup env argv inputs fuel hs, h]
      simp
    · rcases main_post_code_of_startup env argv inputs fuel hs with ⟨hl2, _, _⟩ | ⟨_, _, hc⟩
      · rw [h] at hl2; simp at hl2
      · exact hc

/-- C10 at the sample session: Escape is first pressed in pass 2, and the run has
the three frames 0, 1, 2, the last one ending with the buffer swap, and returns 0. -/
theorem loop_stops_after_first_exit_frame_witness :
    (main sampleEnv sampleArgv sampleInputs 5).frames.length = 3 ∧
    (main sampleEnv sampleArgv sampleInputs 5).frames.getLast? =
      some (passEvents sampleEnv sampleArgv sampleInputs 2) ∧
    Event.draw (some (Model.mk 1)) ∈ passEvents sampleEnv sampleArgv sampleInputs 2 ∧
    (passEvents sampleEnv sampleArgv sampleInputs 2).getLast? = some Event.glfwSwapBuffers ∧
    (main sampleEnv sampleArgv sampleInputs 5).code = some 0 :=
  have h := (loop_stops_after_first_exit_frame sampleEnv sampleArgv sampleInputs 5 rfl
    (by decide)).2.1 2 (by decide) rfl (by decide)
  ⟨h.2.1, h.2.2.1, h.2.2.2.1 (Model.mk 1) rfl rfl, h.2.2.2.2.2.2.2.1, h.2.2.2.2.2.2.2.2.2⟩

/-- C6 at two frames of the sample session's zone that differ in every check box,
every click and every model pointer: their queries and branch lines agree. -/
theorem rendering_never_affects_queries_witness :
    queriesOf (frameEvents sampleEnv
        (Loaded.mk "qeynos" (some (Model.mk 1)) none none (some (ZoneMap.mk 7)) none)
        (LoopState.mk true true true true)
        (FrameInput.mk (Vec3.mk 1 2 3) 60 false false false false false)) =
      queriesOf (frameEvents sampleEnv
        (Loaded.mk "qeynos" none (some (Model.mk 2)) (some (Model.mk 3))
          (some (ZoneMap.mk 7)) none)
        (LoopState.mk true false false false)
        (FrameInput.mk (Vec3.mk 1 2 3) 30 true false true true false)) ∧
    (textsOf (frameEvents sampleEnv
        (Loaded.mk "qeynos" (some (Model.mk 1)) none none (some (ZoneMap.mk 7)) none)
        (LoopState.mk true true true true)
        (FrameInput.mk (Vec3.mk 1 2 3) 60 false false false false false))).filter
          TextLine.isBranchLine =
      (textsOf (frameEvents sampleEnv
        (Loaded.mk "qeynos" none (some (Model.mk 2)) (some (Model.mk 3))
          (some (ZoneMap.mk 7)) none)
        (LoopState.mk true false false false)
        (FrameInput.mk (Vec3.mk 1 2 3) 30 true false true true false))).filter
          TextLine.isBranchLine :=
  rendering_never_affects_queries sampleEnv _ _ _ _ _ _ rfl rfl rfl

/-- C7 at the sample session, whose volume model fails to load: the warning is
logged, `main` does not return -1 and frames run. -/
theorem absent_handle_never_used_witness :
    Event.logWarn "Couldn't load zone areas from map file." ∈
      (main sampleEnv sampleArgv sampleInputs 5).pre ∧
    (main sampleEnv sampleArgv sampleInputs 5).code ≠ some (-1) ∧
    (main sampleEnv sampleArgv sampleInputs 5).frames ≠ [] ∧
    (∀ m, Event.draw m ∈ (main sampleEnv sampleArgv sampleInputs 5).trace →
      m.isSome = true) :=
  have h := absent_handle_never_used sampleEnv sampleArgv sampleInputs 5
  ⟨(h.2 rfl).2.1 rfl, (h.2 rfl).2.2.2.1, (h.2 rfl).2.2.2.2 (by decide),
   fun m hm => (h.1 _ hm).2.2 m rfl⟩

end MapView

namespace ZoneCore

/-! ## Theorems on the query core -/

theorem construct_ok (cap : Nat) (eps : ℚ) (mesh : List Triangle) :
    ∃ e, ZoneQueryEngine.construct cap eps mesh = Except.ok e ∧
      (e.index = none ∧ mesh.filter (fun t => !t.degenerate) = [] ∨
       e.index = some (buildNode cap (mesh.filter (fun t => !t.degenerate)).length
          (mesh.filter (fun t => !t.degenerate)))) := by
  unfold ZoneQueryEngine.construct Build
  cases hk : mesh.filter (fun t => !t.degenerate) with
  | nil => exact ⟨_, rfl, Or.inl ⟨rfl, rfl⟩⟩
  | cons s ss => exact ⟨_, rfl, Or.inr rfl⟩

theorem facade_construct_ok (cap : Nat) (eps : ℚ) (mesh : List Triangle)
    (vols : List LiquidVolume) :
    ∃ f, QueryFacade.construct cap eps mesh vols = Except.ok f ∧
      ZoneQueryEngine.construct cap eps mesh = Except.ok f.zone ∧ f.water.volumes = vols := by
  obtain ⟨e, he, _⟩ := construct_ok cap eps mesh
  refine ⟨QueryFacade.mk e (WaterQueryEngine.mk vols), ?_, he, rfl⟩
  simp [QueryFacade.construct, he, WaterQueryEngine.construct]

theorem find?_isSome_iff (vols : List LiquidVolume) (p : Vertex) :
    (vols.find? (fun v => v.shape.contains p)).isSome = true ↔
      ∃ v ∈ vols, v.shape.contains p = true := by
  simp [List.find?_isSome]

/-- C2: for every set of liquid volumes and every point, `isInLiquid` is true
exactly when at least one volume's containment predicate holds of the point, and
then `InLiquid` names the liquid of a volume that contains it; the predicate of
an axis-aligned box is the conjunction of the three coordinate range
comparisons; and over the box `[x: 0-10, y: 0-10, z: 0-5]` alone the query is
true at `(5, 5, 2)` and false at `(5, 5, 6)`. -/
theorem isInLiquid_iff_some_volume_contains (cap : Nat) (eps : ℚ) (mesh : List Triangle)
    (vols : List LiquidVolume) (x y z : ℚ) :
    (∃ f, QueryFacade.construct cap eps mesh vols = Except.ok f ∧
      (f.isInLiquid x y z = true ↔
        ∃ v ∈ vols, v.shape.contains (Vertex.mk x y z) = true) ∧
      (∀ ty, f.water.InLiquid (Vertex.mk x y z) = some ty →
        ∃ v ∈ vols, v.shape.contains (Vertex.mk x y z) = true ∧ v.liquid = ty)) ∧
    (∀ lo hi : Vertex, (LiquidShape.box lo hi).contains (Vertex.mk x y z) = true ↔
      (lo.x ≤ x ∧ x ≤ hi.x) ∧ (lo.y ≤ y ∧ y ≤ hi.y) ∧ (lo.z ≤ z ∧ z ≤ hi.z)) ∧
    (∀ ty, ∃ f, QueryFacade.construct cap eps mesh
        [LiquidVolume.mk (LiquidShape.box (Vertex.mk 0 0 0) (Vertex.mk 10 10 5)) ty] =
          Except.ok f ∧
      f.isInLiquid 5 5 2 = true ∧ f.isInLiquid 5 5 6 = false) := by
  refine ⟨?_, ?_, ?_⟩
  · obtain ⟨f, hf, _, hw⟩ := facade_construct_ok cap eps mesh vols
    refine ⟨f, hf, ?_, ?_⟩
    · rw [← find?_isSome_iff, ← hw]
      unfold QueryFacade.isInLiquid WaterQueryEngine.InLiquid
      cases f.water.volumes.find? (fun v => v.shape.contains (Vertex.mk x y z)) <;> simp
    · intro ty hty
      unfold WaterQueryEngine.InLiquid at hty
      rw [hw] at hty
      cases hfind : vols.find? (fun v => v.shape.contains (Vertex.mk x y z)) with
      | none => rw [hfind] at hty; simp at hty
      | some v =>
        rw [hfind] at hty
        exact ⟨v, List.mem_of_find?_eq_some hfind,
          by simpa using List.find?_some hfind, Option.some.inj hty⟩
  · intro lo hi
    simp [LiquidShape.contains, and_assoc]
  · intro ty
    obtain ⟨f, hf, _, hw⟩ := facade_construct_ok cap eps mesh
      [LiquidVolume.mk (LiquidShape.box (Vertex.mk 0 0 0) (Vertex.mk 10 10 5)) ty]
    refine ⟨f, hf, ?_, ?_⟩
    · simp only [QueryFacade.isInLiquid, WaterQueryEngine.InLiquid, hw]
      norm_num [List.find?, LiquidShape.contains]
    · simp only [QueryFacade.isInLiquid, WaterQueryEngine.InLiquid, hw]
      norm_num [List.find?, LiquidShape.contains]

/-- C2 at the sample box: the point `(5, 5, 2)` is in a box, so it is in liquid. -/
theorem isInLiquid_iff_some_volume_contains_witness :
    ∃ f, QueryFacade.construct 1 0 [] [sampleBox] = Except.ok f ∧
      f.isInLiquid 5 5 2 = true :=
  match (isInLiquid_iff_some_volume_contains 1 0 [] [sampleBox] 5 5 2).1 with
  | ⟨f, hf, hiff, _⟩ =>
    ⟨f, hf, hiff.mpr ⟨sampleBox, List.mem_singleton.mpr rfl,
      by norm_num [sampleBox, LiquidShape.contains]⟩⟩

/-- C3: over zero collidable triangles the index build raises `EmptyGeometry`,
yet the construction of the facade succeeds, whatever the liquid volumes, and on
the facade built every `heightBelow` query returns `NoSurface` and every
`lineOfSight` query returns "unobstructed". -/
theorem empty_geometry_answers_defaults (cap : Nat) (eps : ℚ) (vols : List LiquidVolume) :
    Build cap [] = Except.error BuildError.EmptyGeometry ∧
    ∃ f, QueryFacade.construct cap eps [] vols = Except.ok f ∧
      (∀ x y z, f.heightBelow x y z = none) ∧
      (∀ a b, f.lineOfSight a b = true) :=
  ⟨rfl, QueryFacade.mk (ZoneQueryEngine.mk none eps) (WaterQueryEngine.mk vols), rfl,
    fun _ _ _ => rfl, fun _ _ => rfl⟩

end ZoneCore
